import Mathlib

/-!
# Verification of the madara p2p sync layer and its glue code

Shallow embedding of the parts of the `leonarddt05/madara` repository that the
checked claims are about:

* `crates/client/p2p/src/lib.rs` — the p2p service: `P2pConfig`, the listen
  address construction, bootstrap dialing, and the `MadaraP2p::run` event loop.
* `crates/node/src/cli/rpc.rs` — `RpcParams::addr_admin` / `addr_user`.
* `crates/primitives/chain_config/src/chain_config.rs` —
  `ChainConfig::exec_constants_by_protocol_version`.
* `crates/primitives/gateway/src/receipt.rs` — the two `From` conversions
  between `mp_receipt::ExecutionResources` and the gateway
  `ExecutionResources`.
* the headers sync handler and the length-prefixed sync codec, which are
  declared in `lib.rs` but whose module bodies are not part of the shown
  sources; those are modelled from the specification text.

Machine integers that the embedded code never overflows (`u16` ports, `u64`
counters) are modelled as `Nat`.
-/

namespace Madara

/-! ## Listen address (`MadaraP2p::run`, lib.rs line 110)

`"/ip4/0.0.0.0".parse::<Multiaddr>()?.with(Protocol::Tcp(self.config.port.unwrap_or(0)))`
-/

/-- The observable content of the multiaddr built by `run`: an IPv4 address
(four octets) plus a TCP port. -/
structure ListenMultiaddr where
  ip4 : Nat × Nat × Nat × Nat
  tcpPort : Nat
  deriving Repr, DecidableEq

/-- lib.rs line 110: the listen address is the literal `/ip4/0.0.0.0` with the
TCP protocol whose port is `self.config.port.unwrap_or(0)`. -/
def listenMultiaddr (port : Option Nat) : ListenMultiaddr :=
  { ip4 := (0, 0, 0, 0), tcpPort := port.getD 0 }

/-! ## Admin RPC address (`RpcParams::addr_admin`, rpc.rs lines 192-200) -/

/-- rpc.rs `RpcEndpoints`: `Auto`, `Safe`, `Unsafe` (the last one named
`unrestricted` here). -/
inductive RpcEndpoints where
  | auto
  | safe
  | unrestricted
  deriving Repr, DecidableEq

/-- An IPv4 address as four octets.  `UNSPECIFIED` is `0.0.0.0`,
`LOCALHOST` is `127.0.0.1`. -/
structure Ipv4Addr where
  o0 : Nat
  o1 : Nat
  o2 : Nat
  o3 : Nat
  deriving Repr, DecidableEq

def Ipv4Addr.UNSPECIFIED : Ipv4Addr := ⟨0, 0, 0, 0⟩

def Ipv4Addr.LOCALHOST : Ipv4Addr := ⟨127, 0, 0, 1⟩

structure SocketAddr where
  ip : Ipv4Addr
  port : Nat
  deriving DecidableEq

/-- The fields of rpc.rs `RpcParams` that `addr_user` / `addr_admin` read. -/
structure RpcParams where
  rpc_external : Bool
  rpc_endpoints : RpcEndpoints
  rpc_port : Nat
  rpc_port_admin : Nat
  deriving Repr, DecidableEq

/-- rpc.rs lines 182-190. -/
def RpcParams.addr_user (p : RpcParams) : SocketAddr :=
  let listen_addr := if p.rpc_external then Ipv4Addr.UNSPECIFIED else Ipv4Addr.LOCALHOST
  { ip := listen_addr, port := p.rpc_port }

/-- rpc.rs lines 192-200: listen on `0.0.0.0` iff `rpc_external` is set and
`rpc_endpoints == RpcEndpoints::Unsafe`, else on `127.0.0.1`; port is
`rpc_port_admin`. -/
def RpcParams.addr_admin (p : RpcParams) : SocketAddr :=
  let listen_addr :=
    if p.rpc_external && p.rpc_endpoints == RpcEndpoints.unrestricted then Ipv4Addr.UNSPECIFIED
    else Ipv4Addr.LOCALHOST
  { ip := listen_addr, port := p.rpc_port_admin }

/-! ## `ChainConfig::exec_constants_by_protocol_version`
(chain_config.rs lines 253-263)

`versioned_constants` is a `BTreeMap<StarknetVersion, VersionedConstants>`;
it is embedded as its ascending association list (`BTreeMap` iteration
order), over an arbitrary linearly ordered key type `V` and an arbitrary
payload type `C`.  The Rust code iterates the map with `.iter().rev()` and
returns the first entry whose key is `≤ version`.
-/

/-- chain_config.rs lines 49-51: the error type, carrying the requested
version. -/
structure UnsupportedProtocolVersion (V : Type) where
  version : V
  deriving Repr, DecidableEq

/-- The `for (k, constants) in ... .rev()` loop body of chain_config.rs lines
257-261, running over an already-reversed (descending) association list. -/
def exec_constants_go {V C : Type} [LinearOrder V] :
    List (V × C) → V → Except (UnsupportedProtocolVersion V) C
  | [], version => .error ⟨version⟩
  | (k, c) :: rest, version =>
      if k ≤ version then .ok c else exec_constants_go rest version

/-- chain_config.rs lines 253-263: iterate the (ascending) versioned
constants map in reverse and return the first constants whose key is
`≤ version`; if none, `Err(UnsupportedProtocolVersion(version))`. -/
def exec_constants_by_protocol_version {V C : Type} [LinearOrder V]
    (versioned_constants : List (V × C)) (version : V) :
    Except (UnsupportedProtocolVersion V) C :=
  exec_constants_go versioned_constants.reverse version

/-! ## The headers sync handler (spec §4.4, §8)

The module `handlers_impl` is declared at lib.rs line 13 and
`handlers_impl::headers_sync` is registered as the headers handler at lib.rs
lines 90-92, but its body is not among the shown sources; it is modelled from
the specification text.
-/

/-- Modelled from the spec: `handlers_impl::headers_sync` (body not among the
shown sources).  Per spec §4.4, the handler validates the requested range
`[a, b)` against the backend's current height and emits one response part per
in-range block, in strictly increasing block order; if the requested upper
bound exceeds the known height it stops at the known height and ends the
stream, which is not an error.  A part is identified by its block number, and
a clean close of the response stream is `Except.ok`. -/
def headers_sync (current_height a b : Nat) : Except String (List Nat) :=
  Except.ok (List.range' a (min b (current_height + 1) - a))

/-! ## The sync codec (spec §4.2, §6)

The module `sync_codec` is declared at lib.rs line 16 but its body is not
among the shown sources; it is modelled from the specification text:
length-prefixed typed binary records (an unsigned varint length prefix
followed by the payload bytes), a `FrameTooLarge` error when the declared
length exceeds the configured maximum, `MalformedMessage` on a decode
failure, and `read_response_part` returning `None` at end of stream.
Bytes are `Nat` values below 256.
-/

/-- Modelled from the spec: the codec's error cases (spec §4.2 / §7). -/
inductive CodecError where
  | FrameTooLarge
  | MalformedMessage
  deriving Repr, DecidableEq

/-- Modelled from the spec: unsigned-varint (LEB128) encoding of the length
prefix, least-significant group first, high bit marking continuation. -/
def encode_varint (n : Nat) : List Nat :=
  if n < 128 then [n] else (n % 128 + 128) :: encode_varint (n / 128)
  decreasing_by exact Nat.div_lt_self (by omega) (by omega)

/-- Modelled from the spec: unsigned-varint decoding; returns the decoded
value and the remaining bytes. -/
def decode_varint : List Nat → Option (Nat × List Nat)
  | [] => none
  | b :: rest =>
      if b < 128 then some (b, rest)
      else
        match decode_varint rest with
        | some (n, r) => some (b - 128 + 128 * n, r)
        | none => none

/-- Modelled from the spec: frame a payload as its varint-encoded length
followed by the payload bytes. -/
def write_frame (payload : List Nat) : List Nat :=
  encode_varint payload.length ++ payload

/-- Modelled from the spec: read one frame.  A declared length over
`max_frame_len` is `FrameTooLarge`; an unreadable prefix or truncated payload
is `MalformedMessage`; otherwise the payload and the remaining bytes. -/
def read_frame (max_frame_len : Nat) (buf : List Nat) :
    Except CodecError (List Nat × List Nat) :=
  match decode_varint buf with
  | none => .error .MalformedMessage
  | some (len, rest) =>
      if max_frame_len < len then .error .FrameTooLarge
      else if rest.length < len then .error .MalformedMessage
      else .ok (rest.take len, rest.drop len)

/-- Modelled from the spec: `write_request` frames one request message. -/
def write_request (req : List Nat) : List Nat :=
  write_frame req

/-- Modelled from the spec: `read_request` reads one framed request. -/
def read_request (max_frame_len : Nat) (buf : List Nat) :
    Except CodecError (List Nat × List Nat) :=
  read_frame max_frame_len buf

/-- Modelled from the spec: `write_response_part` frames one response
part. -/
def write_response_part (part : List Nat) : List Nat :=
  write_frame part

/-- Modelled from the spec: `read_response_part` yields `none` at end of
stream (a closed substream), else reads one framed part. -/
def read_response_part (max_frame_len : Nat) (buf : List Nat) :
    Except CodecError (Option (List Nat) × List Nat) :=
  match buf with
  | [] => .ok (none, [])
  | _ :: _ => (read_frame max_frame_len buf).map fun pr => (some pr.1, pr.2)

/-! ## `ExecutionResources` conversions (gateway receipt.rs lines 141-245)

`L1Gas` (defined in `mp_receipt`) is carried through both conversions without
being inspected, so it is embedded as an arbitrary inhabited type `G`
(`Default::default()` is `(default : G)`).  `u64` counters are `Nat`: the
conversions do no arithmetic on them.
-/

/-- receipt.rs lines 216-241: the gateway builtin counter record. -/
structure BuiltinCounters where
  output_builtin : Nat
  pedersen_builtin : Nat
  range_check_builtin : Nat
  ecdsa_builtin : Nat
  bitwise_builtin : Nat
  ec_op_builtin : Nat
  keccak_builtin : Nat
  poseidon_builtin : Nat
  segment_arena_builtin : Nat
  add_mod_builtin : Nat
  mul_mod_builtin : Nat
  deriving Repr, DecidableEq

/-- `mp_receipt::ExecutionResources`, with exactly the fields the two `From`
impls at receipt.rs lines 151-214 construct and read. -/
structure MpExecutionResources (G : Type) where
  steps : Nat
  memory_holes : Option Nat
  range_check_builtin_applications : Option Nat
  pedersen_builtin_applications : Option Nat
  poseidon_builtin_applications : Option Nat
  ec_op_builtin_applications : Option Nat
  ecdsa_builtin_applications : Option Nat
  bitwise_builtin_applications : Option Nat
  keccak_builtin_applications : Option Nat
  segment_arena_builtin : Option Nat
  data_availability : G
  total_gas_consumed : G
  deriving Repr, DecidableEq

/-- The gateway `ExecutionResources` (receipt.rs lines 143-149). -/
structure GatewayExecutionResources (G : Type) where
  builtin_instance_counter : BuiltinCounters
  n_steps : Nat
  n_memory_holes : Nat
  data_availability : Option G
  total_gas_consumed : Option G
  deriving Repr, DecidableEq

/-- receipt.rs lines 151-173:
`From<mp_receipt::ExecutionResources> for ExecutionResources`
(`unwrap_or(0)` on every optional counter, `Some` on both gas fields). -/
def gatewayOfMp {G : Type} (resources : MpExecutionResources G) :
    GatewayExecutionResources G where
  builtin_instance_counter :=
    { output_builtin := 0
      pedersen_builtin := resources.pedersen_builtin_applications.getD 0
      range_check_builtin := resources.range_check_builtin_applications.getD 0
      ecdsa_builtin := resources.ecdsa_builtin_applications.getD 0
      bitwise_builtin := resources.bitwise_builtin_applications.getD 0
      ec_op_builtin := resources.ec_op_builtin_applications.getD 0
      keccak_builtin := resources.keccak_builtin_applications.getD 0
      poseidon_builtin := resources.poseidon_builtin_applications.getD 0
      segment_arena_builtin := resources.segment_arena_builtin.getD 0
      add_mod_builtin := 0
      mul_mod_builtin := 0 }
  n_steps := resources.steps
  n_memory_holes := resources.memory_holes.getD 0
  data_availability := some resources.data_availability
  total_gas_consumed := some resources.total_gas_consumed

/-- receipt.rs lines 177-183: the `none_if_zero` helper inside the reverse
`From` impl. -/
def none_if_zero (n : Nat) : Option Nat :=
  if n = 0 then none else some n

/-- receipt.rs lines 175-214:
`From<ExecutionResources> for mp_receipt::ExecutionResources`
(`none_if_zero` on every counter, `unwrap_or_default` on both gas fields;
`output_builtin`, `add_mod_builtin`, `mul_mod_builtin` are discarded). -/
def mpOfGateway {G : Type} [Inhabited G] (resources : GatewayExecutionResources G) :
    MpExecutionResources G where
  steps := resources.n_steps
  memory_holes := none_if_zero resources.n_memory_holes
  range_check_builtin_applications :=
    none_if_zero resources.builtin_instance_counter.range_check_builtin
  pedersen_builtin_applications :=
    none_if_zero resources.builtin_instance_counter.pedersen_builtin
  poseidon_builtin_applications :=
    none_if_zero resources.builtin_instance_counter.poseidon_builtin
  ec_op_builtin_applications :=
    none_if_zero resources.builtin_instance_counter.ec_op_builtin
  ecdsa_builtin_applications :=
    none_if_zero resources.builtin_instance_counter.ecdsa_builtin
  bitwise_builtin_applications :=
    none_if_zero resources.builtin_instance_counter.bitwise_builtin
  keccak_builtin_applications :=
    none_if_zero resources.builtin_instance_counter.keccak_builtin
  segment_arena_builtin :=
    none_if_zero resources.builtin_instance_counter.segment_arena_builtin
  data_availability := resources.data_availability.getD default
  total_gas_consumed := resources.total_gas_consumed.getD default

/-- Statement-side helper for the round-trip claim: `some 0` collapses to
`none`, every other optional value is kept. -/
def zeroToNone (o : Option Nat) : Option Nat :=
  match o with
  | some n => if n = 0 then none else some n
  | none => none

/-! ## The `MadaraP2p::run` event loop (lib.rs lines 109-161)

`run` is embedded with its environment made explicit:

* `bindResult` — the outcome of `self.swarm.listen_on(multi_addr)`
  (line 111); an error there is returned with the `"Binding port"` context
  (the `?`).
* `dialResults` — one outcome per configured bootstrap node for
  `self.swarm.dial(node.clone())` (lines 113-117); an `Err` is only logged
  (`tracing::debug!`), never returned.
* `handle_event` — `MadaraP2p::handle_event`, declared in the `events`
  module; `run` only observes its `Result` (line 155).
* `arms` — the finite observed sequence of `tokio::select!` outcomes: which
  branch fired at each iteration of the loop, and, for the swarm branch,
  `swarm.next()`'s yielded `Option<event>`.
-/

/-- One fired branch of the `tokio::select!` at lib.rs lines 122-158. -/
inductive SelectArm (E : Type) where
  | shutdown
  | tick
  | swarmNext (ev : Option E)
  deriving Repr, DecidableEq

/-- Observable side effects accumulated by the loop: the number of status
reports printed by the `tick` branch (lines 127-148) and the events whose
handling completed (line 155). -/
structure LoopLog (E : Type) where
  statusReports : Nat
  handled : List E
  deriving Repr, DecidableEq

/-- How the observed run of the loop at lib.rs lines 121-159 ended. -/
inductive LoopExit (E Err : Type) where
  /-- `graceful_shutdown()` fired: `break`, then `run` returns `Ok(())`. -/
  | cleanShutdown (log : LoopLog E)
  /-- `swarm.next()` yielded `None`: `break`, then `run` returns `Ok(())`. -/
  | exhausted (log : LoopLog E)
  /-- `handle_event` returned `Err`: the `?` at line 155 makes `run` return
  that error. -/
  | failed (err : Err) (log : LoopLog E)
  /-- The observed prefix of select outcomes ended with the loop still
  looping. -/
  | stillLooping (log : LoopLog E)
  deriving Repr, DecidableEq

/-- The `loop { tokio::select! { ... } }` of lib.rs lines 121-159, run over a
finite observed sequence of select outcomes. -/
def runLoop (handle_event : E → Except Err Unit) :
    List (SelectArm E) → LoopLog E → LoopExit E Err
  | [], log => .stillLooping log
  | .shutdown :: _, log => .cleanShutdown log
  | .tick :: rest, log =>
      runLoop handle_event rest { log with statusReports := log.statusReports + 1 }
  | .swarmNext none :: _, log => .exhausted log
  | .swarmNext (some e) :: rest, log =>
      match handle_event e with
      | .ok _ => runLoop handle_event rest { log with handled := log.handled ++ [e] }
      | .error err => .failed err log

/-- What `run` did: how many failed bootstrap dials were logged (lines
113-117), and how the loop ended. -/
structure RunOutcome (E Err : Type) where
  dialFailuresLogged : Nat
  exit : LoopExit E Err
  deriving Repr, DecidableEq

def countErrs (rs : List (Except Err Unit)) : Nat :=
  (rs.filter fun r => match r with | .error _ => true | .ok _ => false).length

/-- `MadaraP2p::run`, lib.rs lines 109-161.  The multiaddr parse at line 110
is of a string constant and cannot fail.  A bind error is returned (`?` at
line 111); dial errors are logged and skipped (lines 113-117); then the main
loop runs. -/
def MadaraP2p.run (bindResult : Except Err Unit) (dialResults : List (Except Err Unit))
    (handle_event : E → Except Err Unit) (arms : List (SelectArm E)) :
    Except Err (RunOutcome E Err) :=
  match bindResult with
  | .error e => .error e
  | .ok _ =>
      .ok { dialFailuresLogged := countErrs dialResults,
            exit := runLoop handle_event arms { statusReports := 0, handled := [] } }

/-- The `anyhow::Result<()>` that the Rust `run` returns, given what the run
did: `some (ok)` / `some (error _)` once the function has returned, `none`
while the loop is still looping. -/
def runRetVal (r : Except Err (RunOutcome E Err)) : Option (Except Err Unit) :=
  match r with
  | .error e => some (.error e)
  | .ok out =>
      match out.exit with
      | .cleanShutdown _ => some (.ok ())
      | .exhausted _ => some (.ok ())
      | .failed err _ => some (.error err)
      | .stillLooping _ => none

end Madara

namespace Madara

/-! ## Helper lemmas -/

theorem exec_constants_go_error_iff {V C : Type} [LinearOrder V]
    (l : List (V × C)) (v : V) :
    exec_constants_go l v = .error ⟨v⟩ ↔ ∀ p ∈ l, v < p.1 := by
  induction l with
  | nil => simp [exec_constants_go]
  | cons hd tl ih =>
    obtain ⟨k0, c0⟩ := hd
    by_cases h : k0 ≤ v
    · simp [exec_constants_go, h, not_lt.mpr h]
    · simp [exec_constants_go, h, ih, lt_of_not_le h]

theorem exec_constants_go_ok_of_greatest {V C : Type} [LinearOrder V]
    {l : List (V × C)} {k v : V} {c : C}
    (hdesc : l.Pairwise (fun p q => q.1 < p.1)) (hmem : (k, c) ∈ l) (hle : k ≤ v)
    (hmax : ∀ p ∈ l, p.1 ≤ v → p.1 ≤ k) :
    exec_constants_go l v = .ok c := by
  induction l with
  | nil => cases hmem
  | cons hd tl ih =>
    obtain ⟨k0, c0⟩ := hd
    obtain ⟨hd_gt, htl⟩ := List.pairwise_cons.mp hdesc
    by_cases hhd : k0 ≤ v
    · have hk0_le : k0 ≤ k := hmax (k0, c0) (List.mem_cons_self _ _) hhd
      rcases List.mem_cons.mp hmem with heq | htl_mem
      · injection heq with h1 h2
        subst h1; subst h2
        simp [exec_constants_go, hhd]
      · exact absurd (hd_gt (k, c) htl_mem) (not_lt.mpr hk0_le)
    · rcases List.mem_cons.mp hmem with heq | htl_mem
      · injection heq with h1 h2
        subst h1
        exact absurd hle hhd
      · simp only [exec_constants_go, if_neg hhd]
        exact ih htl htl_mem fun p hp hpv => hmax p (List.mem_cons_of_mem _ hp) hpv

theorem decode_encode_varint (n : Nat) (rest : List Nat) :
    decode_varint (encode_varint n ++ rest) = some (n, rest) := by
  induction n using Nat.strong_induction_on with
  | _ n ih =>
    rw [encode_varint]
    by_cases h : n < 128
    · simp [h, decode_varint]
    · have hdiv : n / 128 < n := Nat.div_lt_self (by omega) (by omega)
      rw [if_neg h, List.cons_append, decode_varint]
      rw [if_neg (by omega : ¬ n % 128 + 128 < 128)]
      rw [ih (n / 128) hdiv]
      simp
      omega

theorem read_frame_write_frame (max_frame_len : Nat) (m extra : List Nat)
    (hlen : m.length ≤ max_frame_len) :
    read_frame max_frame_len (write_frame m ++ extra) = .ok (m, extra) := by
  rw [write_frame, List.append_assoc, read_frame]
  simp only [decode_encode_varint]
  rw [if_neg (by omega : ¬ max_frame_len < m.length)]
  rw [if_neg (by simp : ¬ (m ++ extra).length < m.length)]
  rw [List.take_left, List.drop_left]

theorem encode_varint_ne_nil (n : Nat) : encode_varint n ≠ [] := by
  rw [encode_varint]
  by_cases h : n < 128 <;> simp [h]

/-! ## Claim theorems (part 1) -/

/-- C1: for every requested header range `[a, b)` with
`a ≤ b ≤ current_height + 1`, the headers handler closes cleanly having
emitted exactly `min(b, current_height+1) - a` parts — one per in-range block
— in strictly increasing block-number order. -/
theorem headers_sync_in_range_parts (current_height a b : Nat)
    (hab : a ≤ b) (hb : b ≤ current_height + 1) :
    ∃ parts, headers_sync current_height a b = Except.ok parts ∧
      parts.length = min b (current_height + 1) - a ∧
      parts.Pairwise (· < ·) ∧
      (∀ n, n ∈ parts ↔ a ≤ n ∧ n < b) := by
  refine ⟨_, rfl, ?_, ?_, ?_⟩
  · simp
  · exact List.pairwise_lt_range' _ _
  · intro n
    rw [List.mem_range'_1]
    have : min b (current_height + 1) = b := min_eq_left hb
    rw [this]
    omega

/-- Witness for C1: height 4, range `[1, 4)` yields the three parts
`[1, 2, 3]`. -/
theorem headers_sync_in_range_parts_witness :
    headers_sync 4 1 4 = Except.ok [1, 2, 3] ∧ (1 : Nat) ≤ 4 ∧ (4 : Nat) ≤ 4 + 1 := by
  obtain ⟨parts, hok, hlen, hpw, hmem⟩ :=
    headers_sync_in_range_parts 4 1 4 (by decide) (by decide)
  refine ⟨?_, by decide, by decide⟩
  have hparts : parts = [1, 2, 3] := by
    have h := hok
    rw [headers_sync] at h
    injection h with h
    rw [← h]
    rfl
  rw [← hparts]
  exact hok

/-- C2: a lower bound past the current height makes the headers handler emit
zero parts and close cleanly with no error; in general the handler always
closes cleanly and never emits a block past the known height. -/
theorem headers_sync_past_height_empty (current_height a b : Nat)
    (ha : current_height < a) :
    headers_sync current_height a b = Except.ok [] ∧
    ∀ a' b' : Nat, ∃ parts, headers_sync current_height a' b' = Except.ok parts ∧
      ∀ n ∈ parts, n ≤ current_height := by
  constructor
  · rw [headers_sync]
    have : min b (current_height + 1) - a = 0 := by omega
    rw [this]
    rfl
  · intro a' b'
    refine ⟨_, rfl, ?_⟩
    intro n hn
    rw [List.mem_range'_1] at hn
    omega

/-- Witness for C2: height 4, range `[7, 10)` yields no parts and a clean
close. -/
theorem headers_sync_past_height_empty_witness :
    headers_sync 4 7 10 = Except.ok [] :=
  (headers_sync_past_height_empty 4 7 10 (by decide)).1

/-- C3: the length-prefixed framing codec round-trips — reading back the
codec's encoding of any valid message (one whose length is within the frame
limit) yields the message again, for requests and for response parts. -/
theorem codec_round_trip (max_frame_len : Nat) (m extra : List Nat)
    (hlen : m.length ≤ max_frame_len) :
    read_request max_frame_len (write_request m ++ extra) = Except.ok (m, extra) ∧
    read_response_part max_frame_len (write_response_part m ++ extra) =
      Except.ok (some m, extra) := by
  have hframe := read_frame_write_frame max_frame_len m extra hlen
  constructor
  · rw [read_request, write_request]
    exact hframe
  · have hne : write_frame m ++ extra ≠ [] := by
      rw [write_frame]
      simp [encode_varint_ne_nil]
    have hsplit : ∃ x xs, write_frame m ++ extra = x :: xs := by
      cases hcase : write_frame m ++ extra with
      | nil => exact absurd hcase hne
      | cons x xs => exact ⟨x, xs, rfl⟩
    obtain ⟨x, xs, hcase⟩ := hsplit
    rw [write_response_part, hcase]
    simp only [read_response_part]
    rw [← hcase, hframe]
    rfl

/-- Witness for C3: the message `[10, 20, 30]` round-trips through a frame
with limit 16, followed by trailing bytes `[9]`. -/
theorem codec_round_trip_witness :
    ([10, 20, 30] : List Nat).length ≤ 16 ∧
    read_request 16 (write_request [10, 20, 30] ++ [9]) = Except.ok ([10, 20, 30], [9]) ∧
    read_response_part 16 (write_response_part [10, 20, 30] ++ [9]) =
      Except.ok (some [10, 20, 30], [9]) := by
  have h := codec_round_trip 16 [10, 20, 30] [9] (by decide)
  exact ⟨by decide, h.1, h.2⟩

/-- C6: the listen address `run` binds is always wildcard IPv4 `0.0.0.0` over
TCP, with the configured port when `P2pConfig.port` is `Some p` and port `0`
(OS-assigned) when it is `None`. -/
theorem listen_addr_wildcard_ipv4_port (port : Option Nat) :
    (listenMultiaddr port).ip4 = (0, 0, 0, 0) ∧
      (∀ p, port = some p → (listenMultiaddr port).tcpPort = p) ∧
      (port = none → (listenMultiaddr port).tcpPort = 0) := by
  refine ⟨rfl, ?_, ?_⟩
  · intro p hp; simp [listenMultiaddr, hp]
  · intro hp; simp [listenMultiaddr, hp]

/-- Witness for C6: evaluates the listen address at `port = some 4242` and at
`port = none`. -/
theorem listen_addr_wildcard_ipv4_port_witness :
    (listenMultiaddr (some 4242)).ip4 = (0, 0, 0, 0) ∧
      (listenMultiaddr (some 4242)).tcpPort = 4242 ∧
      (listenMultiaddr none).tcpPort = 0 :=
  ⟨(listen_addr_wildcard_ipv4_port (some 4242)).1,
   (listen_addr_wildcard_ipv4_port (some 4242)).2.1 4242 rfl,
   (listen_addr_wildcard_ipv4_port none).2.2 rfl⟩

/-- C4 counterexample: a run in which the single network event's handling
fails does not continue looping — `run` returns the handler's error (the `?`
at lib.rs line 155), so a fault scoped to one request terminates the
reactor. -/
theorem run_event_failure_counterexample :
    MadaraP2p.run (E := Unit) (Except.ok ()) []
        (fun _ => Except.error "storage fault") [SelectArm.swarmNext (some ())] =
      Except.ok { dialFailuresLogged := 0,
                  exit := LoopExit.failed "storage fault" { statusReports := 0, handled := [] } } ∧
    runRetVal (MadaraP2p.run (E := Unit) (Except.ok ()) []
        (fun _ => Except.error "storage fault") [SelectArm.swarmNext (some ())]) =
      some (Except.error "storage fault") :=
  ⟨rfl, rfl⟩

/-- C4 (amended): whenever handling of the next network event fails, the `?`
at lib.rs line 155 propagates the error: the loop ends in the `failed` state
and `run` returns that error, so event-handling faults — in addition to
bind-time and identity-load-time faults — abort the p2p subsystem. -/
theorem run_event_failure_aborts {E Err : Type} (handle_event : E → Except Err Unit)
    (e : E) (err : Err) (hfail : handle_event e = Except.error err)
    (rest : List (SelectArm E)) (log : LoopLog E) (dials : List (Except Err Unit)) :
    runLoop handle_event (SelectArm.swarmNext (some e) :: rest) log =
      LoopExit.failed err log ∧
    runRetVal (MadaraP2p.run (Except.ok ()) dials handle_event
        (SelectArm.swarmNext (some e) :: rest)) = some (Except.error err) := by
  constructor
  · simp [runLoop, hfail]
  · simp [MadaraP2p.run, runLoop, hfail, runRetVal]

/-- Witness for C4's amended theorem: a concrete failing handler on a
one-event run. -/
theorem run_event_failure_aborts_witness :
    runLoop (fun (_ : Unit) => Except.error "boom")
        [SelectArm.swarmNext (some ())] { statusReports := 0, handled := [] } =
      LoopExit.failed "boom" { statusReports := 0, handled := [] } ∧
    runRetVal (MadaraP2p.run (Except.ok ()) [] (fun (_ : Unit) => Except.error "boom")
        [SelectArm.swarmNext (some ())]) = some (Except.error "boom") :=
  run_event_failure_aborts (fun _ => Except.error "boom") () "boom" rfl [] _ []

/-- C5: a bind failure is fatal — `run` returns the error; a failed bootstrap
dial is only logged: for every list of dial outcomes, `run` still proceeds to
the main event loop, and the loop's behaviour does not depend on the dial
outcomes. -/
theorem run_bind_fatal_dials_nonfatal {E Err : Type} (e0 : Err)
    (dials dials2 : List (Except Err Unit)) (handle_event : E → Except Err Unit)
    (arms : List (SelectArm E)) :
    MadaraP2p.run (Except.error e0) dials handle_event arms = Except.error e0 ∧
    (∃ out : RunOutcome E Err,
        MadaraP2p.run (Except.ok ()) dials handle_event arms = Except.ok out ∧
        out.exit = runLoop handle_event arms { statusReports := 0, handled := [] }) ∧
    ((MadaraP2p.run (Except.ok ()) dials handle_event arms).map RunOutcome.exit =
      (MadaraP2p.run (Except.ok ()) dials2 handle_event arms).map RunOutcome.exit) := by
  refine ⟨rfl, ⟨_, rfl, rfl⟩, rfl⟩

/-- Witness for C5: with both configured bootstrap dials failing, `run` still
reaches the loop and serves it to a clean shutdown. -/
theorem run_bind_fatal_dials_nonfatal_witness :
    MadaraP2p.run (E := Unit) (Except.error "bind error")
        [Except.error "unreachable"] (fun _ => Except.ok ()) [SelectArm.shutdown] =
      Except.error "bind error" ∧
    runRetVal (MadaraP2p.run (E := Unit) (Except.ok ())
        [Except.error "unreachable", Except.error "unreachable"]
        (fun _ => Except.ok ()) [SelectArm.shutdown]) = some (Except.ok ()) := by
  have h1 := (run_bind_fatal_dials_nonfatal (E := Unit) "bind error"
    [Except.error "unreachable"] [] (fun _ => Except.ok ()) [SelectArm.shutdown]).1
  have h2 := (run_bind_fatal_dials_nonfatal (E := Unit) "bind error"
    [Except.error "unreachable", Except.error "unreachable"] []
    (fun _ => Except.ok ()) [SelectArm.shutdown]).2.1
  refine ⟨h1, ?_⟩
  obtain ⟨out, hrun, hexit⟩ := h2
  rw [hrun]
  simp [runRetVal, hexit, runLoop]

/-- C7: the loop ends cleanly (with `run` returning `Ok`) in exactly two
ways — shutdown signal or exhaustion of the swarm event source — and a timer
tick never terminates the loop, it only emits the status report. -/
theorem run_loop_clean_termination {E Err : Type} (handle_event : E → Except Err Unit)
    (rest : List (SelectArm E)) (log : LoopLog E) (r : Except Err (RunOutcome E Err)) :
    runLoop handle_event (SelectArm.shutdown :: rest) log =
      LoopExit.cleanShutdown log ∧
    runLoop handle_event (SelectArm.swarmNext none :: rest) log =
      LoopExit.exhausted log ∧
    runLoop handle_event (SelectArm.tick :: rest) log =
      runLoop handle_event rest { log with statusReports := log.statusReports + 1 } ∧
    (runRetVal r = some (Except.ok ()) ↔
      ∃ out lg, r = Except.ok out ∧
        (out.exit = LoopExit.cleanShutdown lg ∨ out.exit = LoopExit.exhausted lg)) := by
  refine ⟨rfl, rfl, rfl, ?_⟩
  constructor
  · intro hret
    match r with
    | .error e => simp [runRetVal] at hret
    | .ok out =>
        match hout : out.exit with
        | .cleanShutdown lg => exact ⟨out, lg, rfl, Or.inl hout⟩
        | .exhausted lg => exact ⟨out, lg, rfl, Or.inr hout⟩
        | .failed err lg => simp [runRetVal, hout] at hret
        | .stillLooping lg => simp [runRetVal, hout] at hret
  · rintro ⟨out, lg, rfl, hcase | hcase⟩ <;> simp [runRetVal, hcase]

/-- Witness for C7: a tick followed by the shutdown signal ends the loop
cleanly with exactly one status report emitted. -/
theorem run_loop_clean_termination_witness :
    runLoop (fun (_ : Unit) => (Except.ok () : Except String Unit))
        [SelectArm.tick, SelectArm.shutdown] { statusReports := 0, handled := [] } =
      LoopExit.cleanShutdown { statusReports := 1, handled := [] } ∧
    runRetVal (Except.ok { dialFailuresLogged := 0,
                           exit := LoopExit.cleanShutdown
                             { statusReports := 1, handled := ([] : List Unit) } }) =
      some (Except.ok (ε := String) ()) := by
  have h1 := run_loop_clean_termination
    (fun (_ : Unit) => (Except.ok () : Except String Unit))
    [SelectArm.shutdown] { statusReports := 0, handled := [] }
    (Except.ok { dialFailuresLogged := 0,
                 exit := LoopExit.cleanShutdown { statusReports := 1, handled := [] } })
  have h2 := run_loop_clean_termination
    (fun (_ : Unit) => (Except.ok () : Except String Unit))
    [] { statusReports := 1, handled := [] }
    (Except.ok { dialFailuresLogged := 0,
                 exit := LoopExit.cleanShutdown { statusReports := 1, handled := [] } })
  constructor
  · rw [h1.2.2.1]
    exact h2.1
  · exact h1.2.2.2.mpr ⟨_, _, rfl, Or.inl rfl⟩

/-- C8: `addr_admin` returns `0.0.0.0` iff `rpc_external` is set and
`rpc_endpoints` is `Unsafe`; in every other configuration the IP is
`127.0.0.1`; the port is always `rpc_port_admin`. -/
theorem addr_admin_localhost_unless_external_unrestricted (p : RpcParams) :
    ((p.addr_admin.ip = Ipv4Addr.UNSPECIFIED) ↔
      (p.rpc_external = true ∧ p.rpc_endpoints = RpcEndpoints.unrestricted)) ∧
      (p.addr_admin.ip = Ipv4Addr.UNSPECIFIED ∨ p.addr_admin.ip = Ipv4Addr.LOCALHOST) ∧
      p.addr_admin.port = p.rpc_port_admin := by
  obtain ⟨ext, ep, _, _⟩ := p
  refine ⟨?_, ?_, rfl⟩
  · cases ext <;> cases ep <;>
      simp [RpcParams.addr_admin, Ipv4Addr.UNSPECIFIED, Ipv4Addr.LOCALHOST]
  · cases ext <;> cases ep <;>
      simp [RpcParams.addr_admin]

/-- Witness for C8: evaluates `addr_admin` on the `Auto`+external
configuration, which stays on localhost. -/
theorem addr_admin_localhost_unless_external_unrestricted_witness :
    (RpcParams.addr_admin
        { rpc_external := true, rpc_endpoints := RpcEndpoints.auto,
          rpc_port := 9944, rpc_port_admin := 9943 }).ip = Ipv4Addr.LOCALHOST ∧
    (RpcParams.addr_admin
        { rpc_external := true, rpc_endpoints := RpcEndpoints.auto,
          rpc_port := 9944, rpc_port_admin := 9943 }).port = 9943 := by
  have h := addr_admin_localhost_unless_external_unrestricted
    { rpc_external := true, rpc_endpoints := RpcEndpoints.auto,
      rpc_port := 9944, rpc_port_admin := 9943 }
  refine ⟨?_, h.2.2⟩
  rcases h.2.1 with h0 | h1
  · exact absurd (h.1.mp h0).2 (by decide)
  · exact h1

/-- C9: `exec_constants_by_protocol_version` returns the constants of the
greatest configured version key `k ≤ v` (for an ascending — i.e. `BTreeMap` —
key list), and errs with `UnsupportedProtocolVersion(v)` iff `v` is strictly
below every configured key; on the empty map it always errs. -/
theorem exec_constants_greatest_le_version {V C : Type} [LinearOrder V]
    (vcs : List (V × C)) (hasc : vcs.Pairwise (fun p q => p.1 < q.1)) (v : V) :
    (∀ k c, (k, c) ∈ vcs → k ≤ v → (∀ p ∈ vcs, p.1 ≤ v → p.1 ≤ k) →
        exec_constants_by_protocol_version vcs v = .ok c) ∧
    (exec_constants_by_protocol_version vcs v = .error ⟨v⟩ ↔ ∀ p ∈ vcs, v < p.1) ∧
    exec_constants_by_protocol_version ([] : List (V × C)) v = .error ⟨v⟩ := by
  have hdesc : vcs.reverse.Pairwise (fun p q : V × C => q.1 < p.1) :=
    List.pairwise_reverse.mpr hasc
  refine ⟨?_, ?_, rfl⟩
  · intro k c hmem hle hmax
    exact exec_constants_go_ok_of_greatest hdesc (List.mem_reverse.mpr hmem) hle
      fun p hp hpv => hmax p (List.mem_reverse.mp hp) hpv
  · rw [exec_constants_by_protocol_version, exec_constants_go_error_iff]
    constructor
    · intro h p hp; exact h p (List.mem_reverse.mpr hp)
    · intro h p hp; exact h p (List.mem_reverse.mp hp)

/-- Witness for C9: on the map `{1 ↦ "a", 3 ↦ "b"}`, version `2` resolves to
`"a"` (the greatest key `≤ 2` is `1`), version `0` is unsupported, and the
empty map errs. -/
theorem exec_constants_greatest_le_version_witness :
    exec_constants_by_protocol_version [((1 : Nat), "a"), (3, "b")] 2 = .ok "a" ∧
    exec_constants_by_protocol_version [((1 : Nat), "a"), (3, "b")] 0 = .error ⟨0⟩ ∧
    exec_constants_by_protocol_version ([] : List (Nat × String)) 7 = .error ⟨7⟩ := by
  refine ⟨?_, ?_, ?_⟩
  · exact (exec_constants_greatest_le_version [((1 : Nat), "a"), (3, "b")]
      (by decide) 2).1 1 "a" (by decide) (by decide) (by decide)
  · exact (exec_constants_greatest_le_version [((1 : Nat), "a"), (3, "b")]
      (by decide) 0).2.1.mpr (by decide)
  · exact (exec_constants_greatest_le_version ([] : List (Nat × String))
      (by decide) 7).2.2

theorem none_if_zero_getD (o : Option Nat) : none_if_zero (o.getD 0) = zeroToNone o := by
  cases o <;> simp [none_if_zero, zeroToNone]

theorem zeroToNone_eq_self {o : Option Nat} (h : o ≠ some 0) : zeroToNone o = o := by
  match o with
  | none => rfl
  | some n =>
      have : n ≠ 0 := fun h0 => h (by rw [h0])
      simp [zeroToNone, this]

/-- C10: converting `mp_receipt::ExecutionResources` to the gateway
representation and back maps every optional counter that is `Some(0)` to
`None` and leaves every other field unchanged; in particular the round trip
is the identity whenever no optional counter is `Some(0)`. -/
theorem execution_resources_round_trip {G : Type} [Inhabited G]
    (r : MpExecutionResources G) :
    mpOfGateway (gatewayOfMp r) =
      { r with
        memory_holes := zeroToNone r.memory_holes
        range_check_builtin_applications := zeroToNone r.range_check_builtin_applications
        pedersen_builtin_applications := zeroToNone r.pedersen_builtin_applications
        poseidon_builtin_applications := zeroToNone r.poseidon_builtin_applications
        ec_op_builtin_applications := zeroToNone r.ec_op_builtin_applications
        ecdsa_builtin_applications := zeroToNone r.ecdsa_builtin_applications
        bitwise_builtin_applications := zeroToNone r.bitwise_builtin_applications
        keccak_builtin_applications := zeroToNone r.keccak_builtin_applications
        segment_arena_builtin := zeroToNone r.segment_arena_builtin } ∧
    (r.memory_holes ≠ some 0 →
      r.range_check_builtin_applications ≠ some 0 →
      r.pedersen_builtin_applications ≠ some 0 →
      r.poseidon_builtin_applications ≠ some 0 →
      r.ec_op_builtin_applications ≠ some 0 →
      r.ecdsa_builtin_applications ≠ some 0 →
      r.bitwise_builtin_applications ≠ some 0 →
      r.keccak_builtin_applications ≠ some 0 →
      r.segment_arena_builtin ≠ some 0 →
      mpOfGateway (gatewayOfMp r) = r) := by
  have hgen : mpOfGateway (gatewayOfMp r) =
      { r with
        memory_holes := zeroToNone r.memory_holes
        range_check_builtin_applications := zeroToNone r.range_check_builtin_applications
        pedersen_builtin_applications := zeroToNone r.pedersen_builtin_applications
        poseidon_builtin_applications := zeroToNone r.poseidon_builtin_applications
        ec_op_builtin_applications := zeroToNone r.ec_op_builtin_applications
        ecdsa_builtin_applications := zeroToNone r.ecdsa_builtin_applications
        bitwise_builtin_applications := zeroToNone r.bitwise_builtin_applications
        keccak_builtin_applications := zeroToNone r.keccak_builtin_applications
        segment_arena_builtin := zeroToNone r.segment_arena_builtin } := by
    obtain ⟨steps, mh, rc, pd, ps, eo, ed, bw, kc, sa, da, tg⟩ := r
    simp [mpOfGateway, gatewayOfMp, none_if_zero_getD]
  refine ⟨hgen, ?_⟩
  intro h1 h2 h3 h4 h5 h6 h7 h8 h9
  rw [hgen]
  obtain ⟨steps, mh, rc, pd, ps, eo, ed, bw, kc, sa, da, tg⟩ := r
  simp only at h1 h2 h3 h4 h5 h6 h7 h8 h9
  simp [zeroToNone_eq_self h1, zeroToNone_eq_self h2, zeroToNone_eq_self h3,
    zeroToNone_eq_self h4, zeroToNone_eq_self h5, zeroToNone_eq_self h6,
    zeroToNone_eq_self h7, zeroToNone_eq_self h8, zeroToNone_eq_self h9]

/-- Witness for C10: a concrete resources value with a `Some(0)` memory-holes
counter loses exactly that field, and one with no `Some(0)` counters round
trips to itself. -/
theorem execution_resources_round_trip_witness :
    mpOfGateway (gatewayOfMp
        (⟨5, some 2, some 1, none, some 3, none, none, some 7, none, some 4, 11, 12⟩ :
          MpExecutionResources Nat)) =
      ⟨5, some 2, some 1, none, some 3, none, none, some 7, none, some 4, 11, 12⟩ ∧
    mpOfGateway (gatewayOfMp
        (⟨5, some 0, some 1, none, some 3, none, none, some 7, none, some 4, 11, 12⟩ :
          MpExecutionResources Nat)) =
      ⟨5, none, some 1, none, some 3, none, none, some 7, none, some 4, 11, 12⟩ := by
  constructor
  · exact (execution_resources_round_trip
      (⟨5, some 2, some 1, none, some 3, none, none, some 7, none, some 4, 11, 12⟩ :
        MpExecutionResources Nat)).2
      (by decide) (by decide) (by decide) (by decide) (by decide) (by decide)
      (by decide) (by decide) (by decide)
  · have h := (execution_resources_round_trip
      (⟨5, some 0, some 1, none, some 3, none, none, some 7, none, some 4, 11, 12⟩ :
        MpExecutionResources Nat)).1
    rw [h]
    rfl

end Madara
